import Mathlib

/-! comfortable-swipe: the main driver (`comfortable-swipe-main.cpp`)

A shallow embedding of `parse_config` and `main`: the configuration map, the
`--bare` filter, the construction of the two gesture handlers and the per-line
loop that arbitrates between the keyboard swipe handler (`keyswipe`) and the
mouse hold handler (`mousehold`).

The two handler classes, the float parser `std::stof`, the configuration path
macro and the `MOUSE_*` constants are declared outside the embedded file; they
are the fields of `Env`, so every theorem about `main` holds for all of them.
-/

namespace ComfortableSwipe

/-! ## `std::map<std::string, std::string>` -/

/-- The configuration map, as an association list; the first binding of a key
is the one that counts. -/
abbrev Config := List (String × String)

/-- Lookup of a key (`config.find(k)`), `none` when the key is absent. -/
def mapFind : Config → String → Option String
  | [], _ => none
  | (k', v) :: rest, k => if k' = k then some v else mapFind rest k

/-- The number of bindings of a key, `config.count(k)`: 0 or 1. -/
def mapCount (config : Config) (k : String) : Nat :=
  if (mapFind config k).isSome then 1 else 0

/-- Assignment `config[k] = v`: overwrite the binding of `k`, or add one. -/
def mapAssign : Config → String → String → Config
  | [], k, v => [(k, v)]
  | (k', v') :: rest, k, v =>
      if k' = k then (k', v) :: rest else (k', v') :: mapAssign rest k v

/-- Read access `config[k]`: the value bound to `k`, together with the map
afterwards; an absent key is first bound to the empty string. -/
def mapIndex (config : Config) (k : String) : String × Config :=
  match mapFind config k with
  | some v => (v, config)
  | none => ("", mapAssign config k "")

/-- The test `s.empty()` of `std::string`. -/
def strEmpty (s : String) : Bool := decide (s = "")

/-! ## `parse_config` and the configuration loader -/

/-- The handler `parse_config`: registers `name = value` in the map and
returns 0. The section is not used. -/
def parse_config (config : Config) (_sect name value : String) : Int × Config :=
  (0, mapAssign config name value)

/-- The map built by `ini_parse`, which calls `parse_config` once for every
`(section, name, value)` entry of the file, in file order, on a map that
starts empty. -/
def loadConfig (entries : List (String × String × String)) : Config :=
  entries.foldl (fun config e => (parse_config config e.1 e.2.1 e.2.2).2) []

/-! ## What `main` takes from the other translation units -/

/-- Everything `main` uses that is declared outside `comfortable-swipe-main.cpp`.
`F` stands for `float`, `K` for the state of a `gesture_swipe_xdokey` object and
`M` for the state of a `gesture_swipe_xdomouse` object. -/
structure Env (F K M : Type) where
  /-- The macro `COMFORTABLE_SWIPE_CONFIG`, the path of the configuration file. -/
  COMFORTABLE_SWIPE_CONFIG : String
  /-- The function `std::stof`; `none` stands for a thrown exception. -/
  stof : String → Option F
  /-- The literal `0.0f`. -/
  zero : F
  /-- The constructor `gesture_swipe_xdokey(commands, threshold)`. -/
  keyswipeNew : List String → F → K
  /-- The method `keyswipe.run(line)`; its return value is discarded by `main`. -/
  keyswipeRun : K → String → K
  /-- The constructor `gesture_swipe_xdomouse(mouse3, mouse4)`. -/
  mouseholdNew : String → String → M
  /-- The method `mousehold.run(line)`: its boolean result and the object afterwards. -/
  mouseholdRun : M → String → Bool × M
  /-- The query `mousehold.is_swiping()`. -/
  is_swiping : M → Bool
  /-- The field `mousehold.button`. -/
  button : M → Int
  /-- The constant `MOUSE_NONE`. -/
  MOUSE_NONE : Int
  /-- The constant `MOUSE_MOVE`. -/
  MOUSE_MOVE : Int

/-- Modelled from the spec: the array `gesture_swipe_xdokey::command_name`,
declared in `comfortable-swipe-gesture-swipe-xdokey.cpp`, which is not among the
embedded sources. Section 6 of the specification lists the keys
`left3/left4/right3/right4/up3/up4/down3/down4`, and the comment in `main` names
them `[left|up|right|down][3|4]`. -/
def command_name : List String :=
  ["left3", "left4", "right3", "right4", "up3", "up4", "down3", "down4"]

/-- The value of `EXIT_SUCCESS`. -/
def EXIT_SUCCESS : Int := 0

/-- The value of `EXIT_FAILURE`. -/
def EXIT_FAILURE : Int := 1

/-! ## `main`, before the loop -/

/-- The `--bare` block of `main`: when the arguments after the program name
contain `--bare`, the map is cleared and only `threshold` (if it was bound) is
put back. -/
def bareFilter (config : Config) (argv : List String) : Config :=
  if "--bare" ∈ argv.drop 1 then
    if mapCount config "threshold" ≠ 0 then
      let threshold := (mapIndex config "threshold").1
      mapAssign [] "threshold" threshold
    else
      []
  else
    config

/-- The loop `commands[i] = config[command_name[i]]`: the command strings in the
order of the names, and the map after the reads. -/
def loadCommands : List String → Config → List String × Config
  | [], config => ([], config)
  | name :: names, config =>
      let r := mapIndex config name
      let rs := loadCommands names r.2
      (r.1 :: rs.1, rs.2)

/-- The threshold block: `threshold = 0.0f; try { threshold =
stof(config["threshold"]); } catch (...) {}`. -/
def parseThreshold {F K M : Type} (env : Env F K M) (config : Config) : F × Config :=
  let r := mapIndex config "threshold"
  (match env.stof r.1 with
   | some x => x
   | none => env.zero,
   r.2)

/-- The lines written to `std::cerr` for the deprecated keys `hold3` and `hold4`. -/
def holdWarnings (config : Config) : List String :=
  (if mapCount config "hold3" ≠ 0 then
     ["WARNING: hold3 is deprecated. Use mouse3 instead."] else []) ++
  (if mapCount config "hold4" ≠ 0 then
     ["WARNING: hold4 is deprecated. Use mouse4 instead."] else [])

/-- The expression `config.count(mouseN) ? config[mouseN] : config[holdN]`. -/
def mouseSetting (config : Config) (mouseKey holdKey : String) : String × Config :=
  if mapCount config mouseKey ≠ 0 then mapIndex config mouseKey
  else mapIndex config holdKey

/-- What `main` has computed when it reaches the loop. -/
structure Setup (F : Type) where
  commands : List String
  threshold : F
  warnings : List String
  mouse3 : String
  mouse4 : String
  nomouse : Bool
  config : Config

/-- The part of `main` between the `--bare` block and the loop. -/
def setup {F K M : Type} (env : Env F K M) (config : Config) : Setup F :=
  let c := loadCommands command_name config
  let t := parseThreshold env c.2
  let w := holdWarnings t.2
  let m3 := mouseSetting t.2 "mouse3" "hold3"
  let m4 := mouseSetting m3.2 "mouse4" "hold4"
  Setup.mk c.1 t.1 w m3.1 m4.1 (strEmpty m3.1 || strEmpty m4.1) m4.2

/-! ## The loop -/

/-- The two handler objects of `main`. -/
inductive Handler
  | keyswipe
  | mousehold
  deriving DecidableEq, Repr

/-- One call of a handler's `run` method: which handler, the position of the
line in the input, and the line. -/
structure Call where
  handler : Handler
  index : Nat
  line : String
  deriving DecidableEq, Repr

/-- The state of the two handler objects. -/
structure Handlers (K M : Type) where
  keyswipe : K
  mousehold : M
  deriving DecidableEq, Repr

/-- The condition `mousehold.is_swiping() && mousehold.button == MOUSE_NONE`. -/
def bypass {F K M : Type} (env : Env F K M) (m : M) : Bool :=
  env.is_swiping m && decide (env.button m = env.MOUSE_NONE)

/-- The body of the loop for the line at position `i`: the handlers afterwards
and the calls of `run` made, in the order made. -/
def loopBody {F K M : Type} (env : Env F K M) (nomouse : Bool) (h : Handlers K M)
    (i : Nat) (line : String) : Handlers K M × List Call :=
  if nomouse then
    (⟨env.keyswipeRun h.keyswipe line, h.mousehold⟩, [⟨Handler.keyswipe, i, line⟩])
  else
    if bypass env h.mousehold then
      (⟨env.keyswipeRun h.keyswipe line, h.mousehold⟩, [⟨Handler.keyswipe, i, line⟩])
    else
      let r := env.mouseholdRun h.mousehold line
      if r.1 then
        if env.button r.2 = env.MOUSE_NONE ∨ env.button r.2 = env.MOUSE_MOVE then
          (⟨env.keyswipeRun h.keyswipe line, r.2⟩,
            [⟨Handler.mousehold, i, line⟩, ⟨Handler.keyswipe, i, line⟩])
        else
          (⟨h.keyswipe, r.2⟩, [⟨Handler.mousehold, i, line⟩])
      else
        (⟨h.keyswipe, r.2⟩, [⟨Handler.mousehold, i, line⟩])

/-- What the loop has done when the input ends. -/
structure LoopResult (K M : Type) where
  handlers : Handlers K M
  calls : List Call
  linesRead : Nat

/-- The loop `for (string line; getline(cin, line);)` over the remaining input,
the first remaining line being at position `i`. -/
def runLines {F K M : Type} (env : Env F K M) (nomouse : Bool) :
    Handlers K M → Nat → List String → LoopResult K M
  | h, _, [] => ⟨h, [], 0⟩
  | h, i, line :: rest =>
      let s := loopBody env nomouse h i line
      let r := runLines env nomouse s.1 (i + 1) rest
      ⟨r.handlers, s.2 ++ r.calls, r.linesRead + 1⟩

/-! ## `main` -/

/-- What a run of `main` has done: the value returned, the lines written to
`std::cerr`, the number of input lines read, the calls of the handlers in the
order made, and the handlers at the end (`none` when they were never built). -/
structure MainResult (K M : Type) where
  exitCode : Int
  stderr : List String
  linesRead : Nat
  trace : List Call
  final : Option (Handlers K M)

/-- The part of `main` after the `--bare` block, on the map `config`. -/
def mainBody {F K M : Type} (env : Env F K M) (config : Config) (lines : List String) :
    MainResult K M :=
  let s := setup env config
  let keyswipe := env.keyswipeNew s.commands s.threshold
  let mousehold := env.mouseholdNew s.mouse3 s.mouse4
  let r := runLines env s.nomouse ⟨keyswipe, mousehold⟩ 0 lines
  ⟨EXIT_SUCCESS, s.warnings, r.linesRead, r.calls, some r.handlers⟩

/-- The function `main`. `iniResult` is the value returned by `ini_parse` and
`entries` are the entries it handed to `parse_config`; `argv` includes the
program name; `lines` is the standard input. -/
def main {F K M : Type} (env : Env F K M) (iniResult : Int)
    (entries : List (String × String × String)) (argv : List String)
    (lines : List String) : MainResult K M :=
  if iniResult < 0 then
    ⟨EXIT_FAILURE, ["error: config " ++ env.COMFORTABLE_SWIPE_CONFIG], 0, [], none⟩
  else
    mainBody env (bareFilter (loadConfig entries) argv) lines

/-! ## Auxiliary definitions for the statements -/

/-- The effective mouse setting read from a map: the value of the `mouseN` key
when that key is bound, the value of the `holdN` key otherwise, the empty
string when neither is bound. -/
def effectiveMouse (c : Config) (mouseKey holdKey : String) : String :=
  match mapFind c mouseKey with
  | some v => v
  | none => (mapFind c holdKey).getD ""

/-- The map `main` holds when it reaches the deprecation warnings. -/
def configAtWarnings {F K M : Type} (env : Env F K M) (config : Config) : Config :=
  (parseThreshold env (loadCommands command_name config).2).2

/-- One call of `keyswipe.run` for every line, in input order, the first line
being at position `i`. -/
def keyswipeOnly (i : Nat) (lines : List String) : List Call :=
  (List.enumFrom i lines).map fun p => ⟨Handler.keyswipe, p.1, p.2⟩

/-- The lines a handler receives, with their positions in the input, in the
order of the calls. -/
def received (hd : Handler) (calls : List Call) : List (Nat × String) :=
  (calls.filter fun c => decide (c.handler = hd)).map fun c => (c.index, c.line)

/-- The effect of one logged call on the handlers: a `keyswipe` call applies
`keyswipe.run` to the line, a `mousehold` call applies `mousehold.run` to it. -/
def applyCall {F K M : Type} (env : Env F K M) (h : Handlers K M) (c : Call) :
    Handlers K M :=
  match c.handler with
  | Handler.keyswipe => ⟨env.keyswipeRun h.keyswipe c.line, h.mousehold⟩
  | Handler.mousehold => ⟨h.keyswipe, (env.mouseholdRun h.mousehold c.line).2⟩

/-- The handlers after a list of calls, performed in order. -/
def applyCalls {F K M : Type} (env : Env F K M) (h : Handlers K M) (calls : List Call) :
    Handlers K M :=
  calls.foldl (applyCall env) h

/-! ## A sample environment

The handler classes are not part of the embedded file. For evaluating `main` on
concrete inputs, the definitions below give one small instance of `Env`: a
keyboard handler that records the lines it receives, and a mouse handler that
follows section 4.3 of the specification on the four lines `begin 3`, `begin 4`,
`update` and `end`. No theorem about `main` depends on them. -/

/-- The state of the sample mouse handler. -/
structure SampleMouse where
  mouse3 : String
  mouse4 : String
  swiping : Bool
  button : Int
  deriving DecidableEq, Repr

/-- The button of a mouse setting in the sample handler: 0 for `move`, `n` for
`buttonN`, -1 for anything else. -/
def sampleButton (s : String) : Int :=
  if s = "move" then 0
  else if s = "button1" then 1
  else if s = "button2" then 2
  else if s = "button3" then 3
  else -1

/-- The `run` method of the sample mouse handler. -/
def sampleMouseRun (m : SampleMouse) (line : String) : Bool × SampleMouse :=
  if line = "begin 3" then (true, ⟨m.mouse3, m.mouse4, true, sampleButton m.mouse3⟩)
  else if line = "begin 4" then (true, ⟨m.mouse3, m.mouse4, true, sampleButton m.mouse4⟩)
  else if line = "update" then (m.swiping, m)
  else if line = "end" then (m.swiping, ⟨m.mouse3, m.mouse4, false, -1⟩)
  else (false, m)

/-- The digits of a decimal numeral, read left to right: the digits as one
number and how many of them follow the point. Reading stops at the first
character that cannot continue the numeral. -/
def sampleDecimal : List Char → Bool → Nat → Nat → Nat × Nat
  | [], _, m, d => (m, d)
  | c :: cs, seenDot, m, d =>
      if c = '.' then
        if seenDot then (m, d) else sampleDecimal cs true m d
      else if c.isDigit then
        sampleDecimal cs seenDot (10 * m + (c.toNat - 48)) (if seenDot then d + 1 else d)
      else (m, d)

/-- The sample float parser: `(m, d)` stands for `m / 10^d`; a string that does
not start with a digit is not a number. -/
def sampleStof (s : String) : Option (Nat × Nat) :=
  match s.data with
  | [] => none
  | c :: cs => if c.isDigit then some (sampleDecimal (c :: cs) false 0 0) else none

/-- The sample environment. -/
def sampleEnv : Env (Nat × Nat) (List String) SampleMouse :=
  Env.mk "comfortable-swipe.conf" sampleStof (0, 0)
    (fun _ _ => []) (fun k line => k ++ [line])
    (fun mouse3 mouse4 => ⟨mouse3, mouse4, false, -1⟩) sampleMouseRun
    (fun m => m.swiping) (fun m => m.button) (-1) 0

/-! ## Lemmas on the loop -/

section Loop

variable {F K M : Type}

theorem loopBody_calls_cases (env : Env F K M) (nomouse : Bool) (h : Handlers K M) (i : Nat)
    (line : String) :
    (loopBody env nomouse h i line).2 = [⟨Handler.keyswipe, i, line⟩] ∨
    (loopBody env nomouse h i line).2 = [⟨Handler.mousehold, i, line⟩] ∨
    (loopBody env nomouse h i line).2 =
      [⟨Handler.mousehold, i, line⟩, ⟨Handler.keyswipe, i, line⟩] := by
  unfold loopBody
  dsimp only
  split_ifs <;> simp

theorem loopBody_index (env : Env F K M) (nomouse : Bool) (h : Handlers K M) (i : Nat)
    (line : String) : ∀ c ∈ (loopBody env nomouse h i line).2, c.index = i ∧ c.line = line := by
  intro c hc
  rcases loopBody_calls_cases env nomouse h i line with hs | hs | hs <;> rw [hs] at hc <;>
    simp at hc
  · subst hc; simp
  · subst hc; simp
  · rcases hc with hc | hc <;> subst hc <;> simp

theorem runLines_cons (env : Env F K M) (nomouse : Bool) (h : Handlers K M) (i : Nat)
    (line : String) (rest : List String) :
    runLines env nomouse h i (line :: rest) =
      ⟨(runLines env nomouse (loopBody env nomouse h i line).1 (i + 1) rest).handlers,
       (loopBody env nomouse h i line).2 ++
         (runLines env nomouse (loopBody env nomouse h i line).1 (i + 1) rest).calls,
       (runLines env nomouse (loopBody env nomouse h i line).1 (i + 1) rest).linesRead + 1⟩ :=
  rfl

theorem runLines_cons_calls (env : Env F K M) (nomouse : Bool) (h : Handlers K M) (i : Nat)
    (line : String) (rest : List String) :
    (runLines env nomouse h i (line :: rest)).calls =
      (loopBody env nomouse h i line).2 ++
        (runLines env nomouse (loopBody env nomouse h i line).1 (i + 1) rest).calls :=
  rfl

theorem runLines_single_handlers (env : Env F K M) (nomouse : Bool) (h : Handlers K M)
    (i : Nat) (line : String) :
    (runLines env nomouse h i [line]).handlers = (loopBody env nomouse h i line).1 :=
  rfl

theorem runLines_calls_index (env : Env F K M) (nomouse : Bool) (lines : List String) :
    ∀ (h : Handlers K M) (i : Nat), ∀ c ∈ (runLines env nomouse h i lines).calls, i ≤ c.index := by
  induction lines with
  | nil => intro h i c hc; simp [runLines] at hc
  | cons line rest ih =>
    intro h i c hc
    simp only [runLines, List.mem_append] at hc
    rcases hc with hc | hc
    · exact le_of_eq (loopBody_index env nomouse h i line c hc).1.symm
    · exact Nat.le_of_succ_le (ih _ _ c hc)

theorem runLines_linesRead (env : Env F K M) (nomouse : Bool) (lines : List String) :
    ∀ (h : Handlers K M) (i : Nat), (runLines env nomouse h i lines).linesRead = lines.length := by
  induction lines with
  | nil => intro h i; rfl
  | cons line rest ih => intro h i; simp [runLines, ih]

theorem runLines_append_handlers (env : Env F K M) (nomouse : Bool) (pre post : List String) :
    ∀ (h : Handlers K M) (i : Nat),
      (runLines env nomouse h i (pre ++ post)).handlers =
        (runLines env nomouse (runLines env nomouse h i pre).handlers
          (i + pre.length) post).handlers := by
  induction pre with
  | nil => intro h i; simp [runLines]
  | cons line rest ih =>
    intro h i
    rw [List.cons_append, runLines_cons, runLines_cons, ih, List.length_cons]
    rw [show i + 1 + rest.length = i + (rest.length + 1) by omega]

theorem runLines_append_calls (env : Env F K M) (nomouse : Bool) (pre post : List String) :
    ∀ (h : Handlers K M) (i : Nat),
      (runLines env nomouse h i (pre ++ post)).calls =
        (runLines env nomouse h i pre).calls ++
          (runLines env nomouse (runLines env nomouse h i pre).handlers
            (i + pre.length) post).calls := by
  induction pre with
  | nil => intro h i; simp [runLines]
  | cons line rest ih =>
    intro h i
    rw [List.cons_append, runLines_cons, runLines_cons, ih, List.length_cons]
    rw [show i + 1 + rest.length = i + (rest.length + 1) by omega]
    simp only [List.append_assoc]

theorem runLines_nomouse (env : Env F K M) (lines : List String) :
    ∀ (h : Handlers K M) (i : Nat),
      (runLines env true h i lines).calls = keyswipeOnly i lines ∧
      (runLines env true h i lines).handlers =
        ⟨lines.foldl env.keyswipeRun h.keyswipe, h.mousehold⟩ := by
  induction lines with
  | nil => intro h i; simp [runLines, keyswipeOnly]
  | cons line rest ih =>
    intro h i
    have hb : loopBody env true h i line =
        (⟨env.keyswipeRun h.keyswipe line, h.mousehold⟩, [⟨Handler.keyswipe, i, line⟩]) := by
      simp [loopBody]
    simp [runLines, hb, ih, keyswipeOnly]

theorem runLines_bypass (env : Env F K M) (lines : List String) :
    ∀ (h : Handlers K M) (i : Nat), bypass env h.mousehold = true →
      (runLines env false h i lines).calls = keyswipeOnly i lines ∧
      (runLines env false h i lines).handlers =
        ⟨lines.foldl env.keyswipeRun h.keyswipe, h.mousehold⟩ := by
  induction lines with
  | nil => intro h i _; simp [runLines, keyswipeOnly]
  | cons line rest ih =>
    intro h i hby
    have hb : loopBody env false h i line =
        (⟨env.keyswipeRun h.keyswipe line, h.mousehold⟩, [⟨Handler.keyswipe, i, line⟩]) := by
      simp [loopBody, hby]
    have := ih ⟨env.keyswipeRun h.keyswipe line, h.mousehold⟩ (i + 1) hby
    simp [runLines, hb, this, keyswipeOnly]

theorem main_of_loaded (env : Env F K M) (iniResult : Int)
    (entries : List (String × String × String)) (argv lines : List String)
    (hload : 0 ≤ iniResult) :
    main env iniResult entries argv lines =
      mainBody env (bareFilter (loadConfig entries) argv) lines := by
  unfold main
  rw [if_neg (not_lt.mpr hload)]

end Loop

/-! ## Lemmas on the configuration map -/

section Map

theorem mapFind_mapAssign_self (c : Config) (k v : String) :
    mapFind (mapAssign c k v) k = some v := by
  induction c with
  | nil => simp [mapAssign, mapFind]
  | cons p rest ih =>
    obtain ⟨k', v'⟩ := p
    by_cases hk : k' = k
    · simp [mapAssign, mapFind, hk]
    · simp [mapAssign, mapFind, hk, ih]

theorem mapFind_mapAssign_ne (c : Config) (k v k' : String) (hne : k ≠ k') :
    mapFind (mapAssign c k v) k' = mapFind c k' := by
  induction c with
  | nil => simp [mapAssign, mapFind, hne]
  | cons p rest ih =>
    obtain ⟨k₀, v₀⟩ := p
    by_cases hk : k₀ = k
    · subst hk
      simp [mapAssign, mapFind, hne]
    · by_cases hk' : k₀ = k'
      · subst hk'
        simp [mapAssign, mapFind, hk]
      · simp [mapAssign, mapFind, hk, hk', ih]

theorem mapIndex_fst (c : Config) (k : String) :
    (mapIndex c k).1 = (mapFind c k).getD "" := by
  unfold mapIndex
  cases mapFind c k <;> rfl

theorem mapFind_mapIndex_ne (c : Config) (k k' : String) (hne : k ≠ k') :
    mapFind (mapIndex c k).2 k' = mapFind c k' := by
  unfold mapIndex
  cases mapFind c k with
  | none => exact mapFind_mapAssign_ne c k "" k' hne
  | some v => rfl

theorem mapFind_mapIndex_self (c : Config) (k : String) :
    mapFind (mapIndex c k).2 k = some ((mapFind c k).getD "") := by
  unfold mapIndex
  cases hf : mapFind c k with
  | none => exact mapFind_mapAssign_self c k ""
  | some v => simpa using hf

theorem getD_mapIndex (c : Config) (k k' : String) :
    (mapFind (mapIndex c k).2 k').getD "" = (mapFind c k').getD "" := by
  by_cases hk : k = k'
  · subst hk
    rw [mapFind_mapIndex_self]
    rfl
  · rw [mapFind_mapIndex_ne c k k' hk]

theorem mapCount_ne_zero (c : Config) (k : String) :
    mapCount c k ≠ 0 ↔ (mapFind c k).isSome = true := by
  unfold mapCount
  split_ifs with h <;> simp [h]

theorem loadCommands_fst (names : List String) :
    ∀ c : Config, (loadCommands names c).1 = names.map fun k => (mapFind c k).getD "" := by
  induction names with
  | nil => intro c; rfl
  | cons name rest ih =>
    intro c
    simp only [loadCommands, List.map_cons, ih, mapIndex_fst, getD_mapIndex]

theorem mapFind_loadCommands (names : List String) (k' : String) (hk : k' ∉ names) :
    ∀ c : Config, mapFind (loadCommands names c).2 k' = mapFind c k' := by
  induction names with
  | nil => intro c; rfl
  | cons name rest ih =>
    intro c
    rw [List.mem_cons, not_or] at hk
    simp only [loadCommands]
    rw [ih hk.2, mapFind_mapIndex_ne c name k' (fun h => hk.1 h.symm)]

theorem getD_loadCommands (names : List String) (k' : String) :
    ∀ c : Config, (mapFind (loadCommands names c).2 k').getD "" = (mapFind c k').getD "" := by
  induction names with
  | nil => intro c; rfl
  | cons name rest ih =>
    intro c
    simp only [loadCommands]
    rw [ih, getD_mapIndex]

end Map

/-! ## Lemmas on the setup -/

section SetupLemmas

variable {F K M : Type}

theorem mouseSetting_fst (c : Config) (mouseKey holdKey : String) :
    (mouseSetting c mouseKey holdKey).1 = effectiveMouse c mouseKey holdKey := by
  unfold mouseSetting effectiveMouse
  by_cases h : mapCount c mouseKey ≠ 0
  · rw [if_pos h, mapIndex_fst]
    rw [mapCount_ne_zero] at h
    cases hf : mapFind c mouseKey with
    | none => simp [hf] at h
    | some v => rfl
  · rw [if_neg h, mapIndex_fst]
    rw [mapCount_ne_zero] at h
    cases hf : mapFind c mouseKey with
    | none => rfl
    | some v => simp [hf] at h

theorem mapFind_mouseSetting (c : Config) (mouseKey holdKey k' : String)
    (h1 : mouseKey ≠ k') (h2 : holdKey ≠ k') :
    mapFind (mouseSetting c mouseKey holdKey).2 k' = mapFind c k' := by
  unfold mouseSetting
  split_ifs
  · exact mapFind_mapIndex_ne c mouseKey k' h1
  · exact mapFind_mapIndex_ne c holdKey k' h2

theorem mapFind_configAtWarnings (env : Env F K M) (config : Config) (k' : String)
    (hk : k' ∉ command_name) (ht : "threshold" ≠ k') :
    mapFind (configAtWarnings env config) k' = mapFind config k' := by
  unfold configAtWarnings parseThreshold
  dsimp only
  rw [mapFind_mapIndex_ne _ _ _ ht, mapFind_loadCommands _ _ hk]

theorem setup_commands (env : Env F K M) (config : Config) :
    (setup env config).commands = command_name.map fun k => (mapFind config k).getD "" := by
  unfold setup
  exact loadCommands_fst command_name config

theorem setup_threshold (env : Env F K M) (config : Config) :
    (setup env config).threshold =
      match env.stof ((mapFind config "threshold").getD "") with
      | some x => x
      | none => env.zero := by
  unfold setup parseThreshold
  dsimp only
  rw [mapIndex_fst, getD_loadCommands]

theorem setup_warnings (env : Env F K M) (config : Config) :
    (setup env config).warnings = holdWarnings config := by
  have h3 := mapFind_configAtWarnings env config "hold3" (by decide) (by decide)
  have h4 := mapFind_configAtWarnings env config "hold4" (by decide) (by decide)
  unfold setup holdWarnings
  dsimp only
  unfold mapCount
  unfold configAtWarnings at h3 h4
  rw [h3, h4]

theorem setup_mouse3 (env : Env F K M) (config : Config) :
    (setup env config).mouse3 = effectiveMouse config "mouse3" "hold3" := by
  have h1 := mapFind_configAtWarnings env config "mouse3" (by decide) (by decide)
  have h2 := mapFind_configAtWarnings env config "hold3" (by decide) (by decide)
  unfold configAtWarnings at h1 h2
  unfold setup
  dsimp only
  rw [mouseSetting_fst]
  unfold effectiveMouse
  rw [h1, h2]

theorem setup_mouse4 (env : Env F K M) (config : Config) :
    (setup env config).mouse4 = effectiveMouse config "mouse4" "hold4" := by
  have h1 := mapFind_configAtWarnings env config "mouse4" (by decide) (by decide)
  have h2 := mapFind_configAtWarnings env config "hold4" (by decide) (by decide)
  unfold configAtWarnings at h1 h2
  unfold setup
  dsimp only
  rw [mouseSetting_fst]
  unfold effectiveMouse
  rw [mapFind_mouseSetting _ _ _ _ (by decide) (by decide),
    mapFind_mouseSetting _ _ _ _ (by decide) (by decide), h1, h2]

theorem setup_nomouse (env : Env F K M) (config : Config) :
    (setup env config).nomouse =
      (strEmpty (setup env config).mouse3 || strEmpty (setup env config).mouse4) := by
  simp only [setup]

end SetupLemmas

/-! ## Lemmas on `main` -/

section MainLemmas

variable {F K M : Type}

theorem runLines_calls_index_lt (env : Env F K M) (nomouse : Bool) (lines : List String) :
    ∀ (h : Handlers K M) (i : Nat),
      ∀ c ∈ (runLines env nomouse h i lines).calls, c.index < i + lines.length := by
  induction lines with
  | nil => intro h i c hc; simp [runLines] at hc
  | cons line rest ih =>
    intro h i c hc
    rw [runLines_cons] at hc
    simp only [List.mem_append] at hc
    rcases hc with hc | hc
    · have := (loopBody_index env nomouse h i line c hc).1
      simp only [List.length_cons]
      omega
    · have := ih _ _ c hc
      simp only [List.length_cons]
      omega

theorem mainBody_append (env : Env F K M) (config : Config) (pre post : List String)
    (h : Handlers K M) (hpre : (mainBody env config pre).final = some h) :
    (mainBody env config (pre ++ post)).trace =
        (mainBody env config pre).trace ++
          (runLines env (setup env config).nomouse h pre.length post).calls ∧
    (mainBody env config (pre ++ post)).final =
        some (runLines env (setup env config).nomouse h pre.length post).handlers := by
  simp only [mainBody, Option.some.injEq] at hpre ⊢
  rw [runLines_append_calls, runLines_append_handlers, hpre]
  simp

theorem mainBody_trace_index_lt (env : Env F K M) (config : Config) (lines : List String) :
    ∀ c ∈ (mainBody env config lines).trace, c.index < lines.length := by
  intro c hc
  have := runLines_calls_index_lt env (setup env config).nomouse lines _ 0 c hc
  omega

end MainLemmas

/-! ## The loop body, case by case -/

section Body

variable {F K M : Type}

theorem loopBody_bypass (env : Env F K M) (h : Handlers K M) (i : Nat) (line : String)
    (hby : bypass env h.mousehold = true) :
    loopBody env false h i line =
      (⟨env.keyswipeRun h.keyswipe line, h.mousehold⟩, [⟨Handler.keyswipe, i, line⟩]) := by
  simp [loopBody, hby]

theorem loopBody_mousehold (env : Env F K M) (h : Handlers K M) (i : Nat) (line : String)
    (ret : Bool) (m' : M) (hby : bypass env h.mousehold = false)
    (hrun : env.mouseholdRun h.mousehold line = (ret, m')) :
    loopBody env false h i line =
      (⟨if ret = true ∧ (env.button m' = env.MOUSE_NONE ∨ env.button m' = env.MOUSE_MOVE)
          then env.keyswipeRun h.keyswipe line else h.keyswipe, m'⟩,
       (⟨Handler.mousehold, i, line⟩ : Call) ::
         (if ret = true ∧ (env.button m' = env.MOUSE_NONE ∨ env.button m' = env.MOUSE_MOVE)
          then [⟨Handler.keyswipe, i, line⟩] else [])) := by
  unfold loopBody
  dsimp only
  rw [hrun]
  by_cases h1 : ret = true
  · by_cases h2 : env.button m' = env.MOUSE_NONE ∨ env.button m' = env.MOUSE_MOVE
    · simp [hby, h1, h2]
    · simp [hby, h1, h2]
  · simp [hby, h1]

theorem bypass_eq_false (env : Env F K M) (m : M)
    (hnb : ¬ (env.is_swiping m = true ∧ env.button m = env.MOUSE_NONE)) :
    bypass env m = false := by
  unfold bypass
  by_cases h1 : env.is_swiping m = true
  · have h2 : ¬ env.button m = env.MOUSE_NONE := fun h2 => hnb ⟨h1, h2⟩
    simp [h2]
  · simp [h1]

theorem bypass_eq_true (env : Env F K M) (m : M)
    (h1 : env.is_swiping m = true) (h2 : env.button m = env.MOUSE_NONE) :
    bypass env m = true := by
  simp [bypass, h1, h2]

end Body

/-! ## The lines each handler receives -/

section Discipline

variable {F K M : Type}

theorem received_append (hd : Handler) (xs ys : List Call) :
    received hd (xs ++ ys) = received hd xs ++ received hd ys := by
  simp [received]

theorem runLines_discipline (env : Env F K M) (nomouse : Bool) (lines : List String) :
    ∀ (h : Handlers K M) (i : Nat),
      (received Handler.keyswipe (runLines env nomouse h i lines).calls).Sublist
        (List.enumFrom i lines) ∧
      (received Handler.mousehold (runLines env nomouse h i lines).calls).Sublist
        (List.enumFrom i lines) ∧
      (∀ p ∈ List.enumFrom i lines,
        (⟨Handler.keyswipe, p.1, p.2⟩ : Call) ∈ (runLines env nomouse h i lines).calls ∨
        (⟨Handler.mousehold, p.1, p.2⟩ : Call) ∈ (runLines env nomouse h i lines).calls) ∧
      (∀ (j : Nat) (l : String),
        (⟨Handler.keyswipe, j, l⟩ : Call) ∈ (runLines env nomouse h i lines).calls →
        (⟨Handler.mousehold, j, l⟩ : Call) ∈ (runLines env nomouse h i lines).calls →
        ∃ a b c : List Call, (runLines env nomouse h i lines).calls =
          a ++ (⟨Handler.mousehold, j, l⟩ : Call) :: b ++ (⟨Handler.keyswipe, j, l⟩ : Call) :: c) := by
  induction lines with
  | nil =>
    intro h i
    simp [runLines, received]
  | cons line rest ih =>
    intro h i
    obtain ⟨ihk, ihm, ihc, iho⟩ := ih (loopBody env nomouse h i line).1 (i + 1)
    have hge := runLines_calls_index env nomouse rest (loopBody env nomouse h i line).1 (i + 1)
    rw [runLines_cons_calls, List.enumFrom_cons]
    generalize (runLines env nomouse (loopBody env nomouse h i line).1 (i + 1) rest).calls = tr
      at ihk ihm ihc iho hge
    have hnot : ∀ (hd : Handler) (j : Nat) (l : String), (⟨hd, j, l⟩ : Call) ∈ tr → j ≠ i := by
      intro hd j l hmem hji
      have := hge _ hmem
      simp only at this
      omega
    rcases loopBody_calls_cases env nomouse h i line with hs | hs | hs <;> rw [hs]
    · refine ⟨?_, ?_, ?_, ?_⟩
      · rw [received_append]
        exact List.Sublist.cons₂ _ ihk
      · rw [received_append]
        exact List.Sublist.cons _ ihm
      · intro p hp
        rcases List.mem_cons.mp hp with rfl | hp
        · left; simp
        · rcases ihc p hp with hk | hm
          · left; exact List.mem_append_right _ hk
          · right; exact List.mem_append_right _ hm
      · intro j l hk hm
        have hm' : (⟨Handler.mousehold, j, l⟩ : Call) ∈ tr := by simpa using hm
        have hk' : (⟨Handler.keyswipe, j, l⟩ : Call) ∈ tr := by
          rcases List.mem_append.mp hk with hk | hk
          · simp at hk
            exact absurd hk.1 (hnot _ _ _ hm')
          · exact hk
        obtain ⟨a, b, c, habc⟩ := iho j l hk' hm'
        exact ⟨(⟨Handler.keyswipe, i, line⟩ : Call) :: a, b, c, by rw [habc]; simp⟩
    · refine ⟨?_, ?_, ?_, ?_⟩
      · rw [received_append]
        exact List.Sublist.cons _ ihk
      · rw [received_append]
        exact List.Sublist.cons₂ _ ihm
      · intro p hp
        rcases List.mem_cons.mp hp with rfl | hp
        · right; simp
        · rcases ihc p hp with hk | hm
          · left; exact List.mem_append_right _ hk
          · right; exact List.mem_append_right _ hm
      · intro j l hk hm
        have hk' : (⟨Handler.keyswipe, j, l⟩ : Call) ∈ tr := by simpa using hk
        have hm' : (⟨Handler.mousehold, j, l⟩ : Call) ∈ tr := by
          rcases List.mem_append.mp hm with hm | hm
          · simp at hm
            exact absurd hm.1 (hnot _ _ _ hk')
          · exact hm
        obtain ⟨a, b, c, habc⟩ := iho j l hk' hm'
        exact ⟨(⟨Handler.mousehold, i, line⟩ : Call) :: a, b, c, by rw [habc]; simp⟩
    · refine ⟨?_, ?_, ?_, ?_⟩
      · rw [received_append]
        exact List.Sublist.cons₂ _ ihk
      · rw [received_append]
        exact List.Sublist.cons₂ _ ihm
      · intro p hp
        rcases List.mem_cons.mp hp with rfl | hp
        · left; simp
        · rcases ihc p hp with hk | hm
          · left; exact List.mem_append_right _ hk
          · right; exact List.mem_append_right _ hm
      · intro j l hk hm
        by_cases hji : j = i
        · subst hji
          have hl : l = line := by
            rcases List.mem_append.mp hk with hk | hk
            · simp at hk
              exact hk
            · exact absurd rfl (hnot _ _ _ hk)
          subst hl
          exact ⟨[], [], tr, by simp⟩
        · have hk' : (⟨Handler.keyswipe, j, l⟩ : Call) ∈ tr := by
            rcases List.mem_append.mp hk with hk | hk
            · simp at hk
              exact absurd hk.1 hji
            · exact hk
          have hm' : (⟨Handler.mousehold, j, l⟩ : Call) ∈ tr := by
            rcases List.mem_append.mp hm with hm | hm
            · simp at hm
              exact absurd hm.1 hji
            · exact hm
          obtain ⟨a, b, c, habc⟩ := iho j l hk' hm'
          exact ⟨(⟨Handler.mousehold, i, line⟩ : Call) :: (⟨Handler.keyswipe, i, line⟩ : Call) :: a,
            b, c, by rw [habc]; simp⟩

theorem loopBody_applyCalls (env : Env F K M) (nomouse : Bool) (h : Handlers K M) (i : Nat)
    (line : String) :
    (loopBody env nomouse h i line).1 = applyCalls env h (loopBody env nomouse h i line).2 := by
  unfold loopBody
  dsimp only
  split_ifs <;> simp [applyCalls, applyCall]

theorem runLines_handlers_applyCalls (env : Env F K M) (nomouse : Bool) (lines : List String) :
    ∀ (h : Handlers K M) (i : Nat),
      (runLines env nomouse h i lines).handlers =
        applyCalls env h (runLines env nomouse h i lines).calls := by
  induction lines with
  | nil => intro h i; rfl
  | cons line rest ih =>
    intro h i
    rw [runLines_cons]
    show (runLines env nomouse (loopBody env nomouse h i line).1 (i + 1) rest).handlers =
      applyCalls env h ((loopBody env nomouse h i line).2 ++
        (runLines env nomouse (loopBody env nomouse h i line).1 (i + 1) rest).calls)
    rw [ih]
    unfold applyCalls
    rw [List.foldl_append]
    congr 1
    exact loopBody_applyCalls env nomouse h i line

end Discipline

/-! ## Lemmas on the `--bare` block and on equal setups -/

section BareLemmas

variable {F K M : Type}

theorem bareFilter_of_bare (config : Config) (argv : List String)
    (hbare : "--bare" ∈ argv.drop 1) :
    bareFilter config argv =
      match mapFind config "threshold" with
      | some v => [("threshold", v)]
      | none => [] := by
  unfold bareFilter
  rw [if_pos hbare]
  cases hf : mapFind config "threshold" with
  | none => simp [mapCount, hf]
  | some v => simp [mapCount, hf, mapIndex, mapAssign]

theorem mapFind_singleton_ne (k v k' : String) (hne : k' ≠ k) :
    mapFind [(k, v)] k' = none := by
  have hne' : ¬ k = k' := fun h => hne h.symm
  simp [mapFind, hne']

theorem mainBody_congr (env : Env F K M) (c₁ c₂ : Config) (lines : List String)
    (hc : (setup env c₁).commands = (setup env c₂).commands)
    (ht : (setup env c₁).threshold = (setup env c₂).threshold)
    (h3 : (setup env c₁).mouse3 = (setup env c₂).mouse3)
    (h4 : (setup env c₁).mouse4 = (setup env c₂).mouse4) :
    (mainBody env c₁ lines).trace = (mainBody env c₂ lines).trace ∧
    (mainBody env c₁ lines).final = (mainBody env c₂ lines).final ∧
    (mainBody env c₁ lines).exitCode = (mainBody env c₂ lines).exitCode ∧
    (mainBody env c₁ lines).linesRead = (mainBody env c₂ lines).linesRead := by
  have hn : (setup env c₁).nomouse = (setup env c₂).nomouse := by
    rw [setup_nomouse, setup_nomouse, h3, h4]
  simp only [mainBody, hc, ht, h3, h4, hn, and_self]

theorem setup_congr_of_alias (env : Env F K M) (c : Config) (a b v : String)
    (ha : a ∉ command_name) (hb : b ∉ command_name)
    (hat : a ≠ "threshold") (hbt : b ≠ "threshold") :
    (setup env (mapAssign c a v)).commands = (setup env (mapAssign c b v)).commands ∧
    (setup env (mapAssign c a v)).threshold = (setup env (mapAssign c b v)).threshold := by
  constructor
  · rw [setup_commands, setup_commands]
    apply List.map_congr_left
    intro k hk
    rw [mapFind_mapAssign_ne c a v k (fun h => ha (h ▸ hk)),
      mapFind_mapAssign_ne c b v k (fun h => hb (h ▸ hk))]
  · rw [setup_threshold, setup_threshold, mapFind_mapAssign_ne c a v _ hat,
      mapFind_mapAssign_ne c b v _ hbt]

end BareLemmas

/-! ## The claims -/

section Claims

variable {F K M : Type}

/-- C1 (fast path). When the configuration is loaded and both effective mouse
settings computed by `main` (the strings `mouse3` and `mouse4`, after the
`hold3`/`hold4` alias) are empty, the calls made by `main` are exactly one
call of `keyswipe.run` per input line, in input order; `mousehold.run` is
called on no line. Accordingly the `keyswipe` object at the end is the one
constructed from the commands and the threshold with `keyswipe.run` applied to
every input line in input order, and the `mousehold` object is still as
constructed. -/
theorem fast_path_keyswipe_only (env : Env F K M) (iniResult : Int)
    (entries : List (String × String × String)) (argv lines : List String)
    (hload : 0 ≤ iniResult)
    (h3 : (setup env (bareFilter (loadConfig entries) argv)).mouse3 = "")
    (h4 : (setup env (bareFilter (loadConfig entries) argv)).mouse4 = "") :
    (main env iniResult entries argv lines).trace = keyswipeOnly 0 lines ∧
    (∀ c ∈ (main env iniResult entries argv lines).trace, c.handler ≠ Handler.mousehold) ∧
    (main env iniResult entries argv lines).final =
      some ⟨lines.foldl env.keyswipeRun
              (env.keyswipeNew (setup env (bareFilter (loadConfig entries) argv)).commands
                (setup env (bareFilter (loadConfig entries) argv)).threshold),
            env.mouseholdNew (setup env (bareFilter (loadConfig entries) argv)).mouse3
              (setup env (bareFilter (loadConfig entries) argv)).mouse4⟩ := by
  have hno : (setup env (bareFilter (loadConfig entries) argv)).nomouse = true := by
    rw [setup_nomouse, h3, h4]
    decide
  have htr : (main env iniResult entries argv lines).trace = keyswipeOnly 0 lines := by
    rw [main_of_loaded env iniResult entries argv lines hload]
    simp only [mainBody, hno]
    exact (runLines_nomouse env lines _ 0).1
  have hfin : (main env iniResult entries argv lines).final =
      some ⟨lines.foldl env.keyswipeRun
              (env.keyswipeNew (setup env (bareFilter (loadConfig entries) argv)).commands
                (setup env (bareFilter (loadConfig entries) argv)).threshold),
            env.mouseholdNew (setup env (bareFilter (loadConfig entries) argv)).mouse3
              (setup env (bareFilter (loadConfig entries) argv)).mouse4⟩ := by
    rw [main_of_loaded env iniResult entries argv lines hload]
    simp only [mainBody, hno]
    rw [(runLines_nomouse env lines _ 0).2]
  refine ⟨htr, ?_, hfin⟩
  intro c hc
  rw [htr] at hc
  simp only [keyswipeOnly, List.mem_map] at hc
  obtain ⟨p, _, rfl⟩ := hc
  simp

/-- Witness of C1: a configuration that binds only `left3`, on three lines; the
recording `keyswipe` of the sample environment ends holding the three lines. -/
theorem fast_path_keyswipe_only_witness :
    (0 : Int) ≤ 1 ∧
    (setup sampleEnv (bareFilter (loadConfig [("", "left3", "ctrl+Left")])
      ["comfortable-swipe-buffer"])).mouse3 = "" ∧
    (setup sampleEnv (bareFilter (loadConfig [("", "left3", "ctrl+Left")])
      ["comfortable-swipe-buffer"])).mouse4 = "" ∧
    (main sampleEnv 1 [("", "left3", "ctrl+Left")] ["comfortable-swipe-buffer"]
      ["begin 3", "update", "end"]).trace =
      [⟨Handler.keyswipe, 0, "begin 3"⟩, ⟨Handler.keyswipe, 1, "update"⟩,
       ⟨Handler.keyswipe, 2, "end"⟩] ∧
    (main sampleEnv 1 [("", "left3", "ctrl+Left")] ["comfortable-swipe-buffer"]
      ["begin 3", "update", "end"]).final =
      some ⟨["begin 3", "update", "end"], ⟨"", "", false, -1⟩⟩ :=
  ⟨by decide, by decide, by decide,
    (fast_path_keyswipe_only sampleEnv 1 [("", "left3", "ctrl+Left")]
      ["comfortable-swipe-buffer"] ["begin 3", "update", "end"]
      (by decide) (by decide) (by decide)).1,
    (fast_path_keyswipe_only sampleEnv 1 [("", "left3", "ctrl+Left")]
      ["comfortable-swipe-buffer"] ["begin 3", "update", "end"]
      (by decide) (by decide) (by decide)).2.2⟩

/-- C2 (the code at the failing input). With `mouse3 = button1` as the only
entry of the configuration and no `--bare`, `mouse4` is empty, so `nomouse` is
true: the three lines all go to `keyswipe.run` and none to `mousehold.run`. -/
theorem mouse3_alone_takes_fast_path (env : Env F K M) (iniResult : Int) (sect prog : String)
    (b u e : String) (hload : 0 ≤ iniResult) :
    (setup env (bareFilter (loadConfig [(sect, "mouse3", "button1")]) [prog])).mouse3
      = "button1" ∧
    (setup env (bareFilter (loadConfig [(sect, "mouse3", "button1")]) [prog])).mouse4 = "" ∧
    (setup env (bareFilter (loadConfig [(sect, "mouse3", "button1")]) [prog])).nomouse
      = true ∧
    (main env iniResult [(sect, "mouse3", "button1")] [prog] [b, u, e]).trace =
      [⟨Handler.keyswipe, 0, b⟩, ⟨Handler.keyswipe, 1, u⟩, ⟨Handler.keyswipe, 2, e⟩] := by
  have hcfg : bareFilter (loadConfig [(sect, "mouse3", "button1")]) [prog] =
      [("mouse3", "button1")] := by
    simp [bareFilter, loadConfig, parse_config, mapAssign]
  have h3 : (setup env [("mouse3", "button1")]).mouse3 = "button1" := by
    rw [setup_mouse3]; decide
  have h4 : (setup env [("mouse3", "button1")]).mouse4 = "" := by
    rw [setup_mouse4]; decide
  have hno : (setup env [("mouse3", "button1")]).nomouse = true := by
    rw [setup_nomouse, h3, h4]; decide
  rw [main_of_loaded env iniResult _ _ _ hload, hcfg]
  refine ⟨h3, h4, hno, ?_⟩
  simp only [mainBody, hno]
  exact (runLines_nomouse env [b, u, e] _ 0).1

/-- Witness of the evaluation for C2, in the sample environment. -/
theorem mouse3_alone_takes_fast_path_witness :
    (0 : Int) ≤ 1 ∧
    (main sampleEnv 1 [("", "mouse3", "button1")] ["comfortable-swipe-buffer"]
      ["begin 3", "update", "end"]).trace =
      [⟨Handler.keyswipe, 0, "begin 3"⟩, ⟨Handler.keyswipe, 1, "update"⟩,
       ⟨Handler.keyswipe, 2, "end"⟩] :=
  ⟨by decide,
    (mouse3_alone_takes_fast_path sampleEnv 1 "" "comfortable-swipe-buffer"
      "begin 3" "update" "end" (by decide)).2.2.2⟩

/-- C3 (arbitration rule 3). Outside the fast path (`nomouse` false), take any
line of the input, `pre` being the lines before it and `post` the lines after
it, and let `h` be the handlers when the line is reached. If `mousehold` is not
in the state `is_swiping() && button == MOUSE_NONE`, and `mousehold.run(line)`
returns `ret` and leaves the object `m'`, then the calls made for this line are
`mousehold.run(line)` first and, after it, `keyswipe.run(line)` exactly when `ret`
is true and the button of `m'` is `MOUSE_NONE` or `MOUSE_MOVE`; for any other
button (a simulated button hold) `keyswipe.run` is not called on the line. All
earlier calls are for earlier lines and all later calls for later lines. -/
theorem rule3_mousehold_then_keyswipe (env : Env F K M) (iniResult : Int)
    (entries : List (String × String × String)) (argv pre : List String) (line : String)
    (post : List String) (h : Handlers K M) (ret : Bool) (m' : M)
    (hload : 0 ≤ iniResult)
    (hslow : (setup env (bareFilter (loadConfig entries) argv)).nomouse = false)
    (hpre : (main env iniResult entries argv pre).final = some h)
    (hnb : ¬ (env.is_swiping h.mousehold = true ∧ env.button h.mousehold = env.MOUSE_NONE))
    (hrun : env.mouseholdRun h.mousehold line = (ret, m')) :
    ∃ later : List Call,
      (main env iniResult entries argv (pre ++ line :: post)).trace =
        (main env iniResult entries argv pre).trace ++
          ((⟨Handler.mousehold, pre.length, line⟩ : Call) ::
            (if ret = true ∧ (env.button m' = env.MOUSE_NONE ∨ env.button m' = env.MOUSE_MOVE)
             then [⟨Handler.keyswipe, pre.length, line⟩] else [])) ++ later ∧
      (∀ c ∈ (main env iniResult entries argv pre).trace, c.index < pre.length) ∧
      (∀ c ∈ later, pre.length < c.index) ∧
      (main env iniResult entries argv (pre ++ [line])).final =
        some ⟨if ret = true ∧ (env.button m' = env.MOUSE_NONE ∨ env.button m' = env.MOUSE_MOVE)
              then env.keyswipeRun h.keyswipe line else h.keyswipe, m'⟩ := by
  rw [main_of_loaded env iniResult entries argv _ hload] at hpre ⊢
  rw [main_of_loaded env iniResult entries argv _ hload,
    main_of_loaded env iniResult entries argv _ hload]
  have hby := bypass_eq_false env h.mousehold hnb
  have hbody := loopBody_mousehold env h pre.length line ret m' hby hrun
  obtain ⟨htr, -⟩ := mainBody_append env _ pre (line :: post) h hpre
  obtain ⟨-, hfin⟩ := mainBody_append env _ pre [line] h hpre
  rw [hslow] at htr hfin
  rw [runLines_cons_calls, hbody] at htr
  rw [runLines_single_handlers, hbody] at hfin
  refine ⟨(runLines env false
      ⟨if ret = true ∧ (env.button m' = env.MOUSE_NONE ∨ env.button m' = env.MOUSE_MOVE)
        then env.keyswipeRun h.keyswipe line else h.keyswipe, m'⟩ (pre.length + 1) post).calls,
    ?_, mainBody_trace_index_lt env _ pre, ?_, hfin⟩
  · rw [htr, List.append_assoc]
  · intro c hc
    exact runLines_calls_index env false post _ _ c hc

/-- Witness of C3: `mouse3 = button1`, `mouse4 = move`; the line `begin 4` arrives
after a finished 3-finger gesture and is passed to both handlers, `mousehold`
first. -/
theorem rule3_mousehold_then_keyswipe_witness :
    ∃ later : List Call,
      (main sampleEnv 1 [("", "mouse3", "button1"), ("", "mouse4", "move")]
          ["comfortable-swipe-buffer"] (["begin 3", "end"] ++ "begin 4" :: ["update"])).trace =
        (main sampleEnv 1 [("", "mouse3", "button1"), ("", "mouse4", "move")]
          ["comfortable-swipe-buffer"] ["begin 3", "end"]).trace ++
          ((⟨Handler.mousehold, 2, "begin 4"⟩ : Call) ::
            (if true = true ∧ ((0 : Int) = -1 ∨ (0 : Int) = 0)
             then [⟨Handler.keyswipe, 2, "begin 4"⟩] else [])) ++ later ∧
      (∀ c ∈ (main sampleEnv 1 [("", "mouse3", "button1"), ("", "mouse4", "move")]
          ["comfortable-swipe-buffer"] ["begin 3", "end"]).trace, c.index < 2) ∧
      (∀ c ∈ later, 2 < c.index) ∧
      (main sampleEnv 1 [("", "mouse3", "button1"), ("", "mouse4", "move")]
          ["comfortable-swipe-buffer"] (["begin 3", "end"] ++ ["begin 4"])).final =
        some ⟨if true = true ∧ ((0 : Int) = -1 ∨ (0 : Int) = 0)
              then sampleEnv.keyswipeRun ["end"] "begin 4" else ["end"],
              ⟨"button1", "move", true, 0⟩⟩ :=
  rule3_mousehold_then_keyswipe sampleEnv 1 [("", "mouse3", "button1"), ("", "mouse4", "move")]
    ["comfortable-swipe-buffer"] ["begin 3", "end"] "begin 4" ["update"]
    ⟨["end"], ⟨"button1", "move", false, -1⟩⟩ true ⟨"button1", "move", true, 0⟩
    (by decide) (by decide) (by decide) (by decide) (by decide)

/-- C4 (arbitration rule 2). Outside the fast path, take any line of the input,
`pre` being the lines before it and `post` the lines after it, and let `h` be
the handlers when the line is reached. If `mousehold` is in the state
`is_swiping() && button == MOUSE_NONE`, the only call made for the line is one
call of `keyswipe.run(line)`; `mousehold` is not called and keeps its state.
This holds for every line, so in particular for every swipe event line. -/
theorem rule2_bypass_keyswipe_only (env : Env F K M) (iniResult : Int)
    (entries : List (String × String × String)) (argv pre : List String) (line : String)
    (post : List String) (h : Handlers K M)
    (hload : 0 ≤ iniResult)
    (hslow : (setup env (bareFilter (loadConfig entries) argv)).nomouse = false)
    (hpre : (main env iniResult entries argv pre).final = some h)
    (hswiping : env.is_swiping h.mousehold = true)
    (hnone : env.button h.mousehold = env.MOUSE_NONE) :
    ∃ later : List Call,
      (main env iniResult entries argv (pre ++ line :: post)).trace =
        (main env iniResult entries argv pre).trace ++
          [⟨Handler.keyswipe, pre.length, line⟩] ++ later ∧
      (∀ c ∈ (main env iniResult entries argv pre).trace, c.index < pre.length) ∧
      (∀ c ∈ later, pre.length < c.index) ∧
      (main env iniResult entries argv (pre ++ [line])).final =
        some ⟨env.keyswipeRun h.keyswipe line, h.mousehold⟩ := by
  rw [main_of_loaded env iniResult entries argv _ hload] at hpre ⊢
  rw [main_of_loaded env iniResult entries argv _ hload,
    main_of_loaded env iniResult entries argv _ hload]
  have hby := bypass_eq_true env h.mousehold hswiping hnone
  have hbody := loopBody_bypass env h pre.length line hby
  obtain ⟨htr, -⟩ := mainBody_append env _ pre (line :: post) h hpre
  obtain ⟨-, hfin⟩ := mainBody_append env _ pre [line] h hpre
  rw [hslow] at htr hfin
  rw [runLines_cons_calls, hbody] at htr
  rw [runLines_single_handlers, hbody] at hfin
  refine ⟨(runLines env false ⟨env.keyswipeRun h.keyswipe line, h.mousehold⟩
      (pre.length + 1) post).calls,
    ?_, mainBody_trace_index_lt env _ pre, ?_, hfin⟩
  · rw [htr, List.append_assoc]
  · intro c hc
    exact runLines_calls_index env false post _ _ c hc

/-- Witness of C4: `mouse3 = button1`, `mouse4 = x` (not a button of the sample
handler); after `begin 4` the sample `mousehold` is swiping with no button, and
the next line goes to `keyswipe` only. -/
theorem rule2_bypass_keyswipe_only_witness :
    ∃ later : List Call,
      (main sampleEnv 1 [("", "mouse3", "button1"), ("", "mouse4", "x")]
          ["comfortable-swipe-buffer"] (["begin 4"] ++ "update" :: ["end"])).trace =
        (main sampleEnv 1 [("", "mouse3", "button1"), ("", "mouse4", "x")]
          ["comfortable-swipe-buffer"] ["begin 4"]).trace ++
          [⟨Handler.keyswipe, 1, "update"⟩] ++ later ∧
      (∀ c ∈ (main sampleEnv 1 [("", "mouse3", "button1"), ("", "mouse4", "x")]
          ["comfortable-swipe-buffer"] ["begin 4"]).trace, c.index < 1) ∧
      (∀ c ∈ later, 1 < c.index) ∧
      (main sampleEnv 1 [("", "mouse3", "button1"), ("", "mouse4", "x")]
          ["comfortable-swipe-buffer"] (["begin 4"] ++ ["update"])).final =
        some ⟨sampleEnv.keyswipeRun ["begin 4"] "update", ⟨"button1", "x", true, -1⟩⟩ :=
  rule2_bypass_keyswipe_only sampleEnv 1 [("", "mouse3", "button1"), ("", "mouse4", "x")]
    ["comfortable-swipe-buffer"] ["begin 4"] "update" ["end"]
    ⟨["begin 4"], ⟨"button1", "x", true, -1⟩⟩
    (by decide) (by decide) (by decide) (by decide) (by decide)

/-- C10 (absorbing bypass state). Outside the fast path, let `h` be the handlers
after the lines `pre`. If `mousehold` is then in the state
`is_swiping() && button == MOUSE_NONE`, then for every continuation `rest` of the
input the calls made for `rest` are one call of `keyswipe.run` per line and no
call of `mousehold.run`, and at the end `mousehold` is still the object of `h`,
unchanged. The state of `keyswipe` is a separate component of the handlers, so
`keyswipe.run` cannot change `mousehold`. -/
theorem bypass_state_is_absorbing (env : Env F K M) (iniResult : Int)
    (entries : List (String × String × String)) (argv pre rest : List String)
    (h : Handlers K M)
    (hload : 0 ≤ iniResult)
    (hslow : (setup env (bareFilter (loadConfig entries) argv)).nomouse = false)
    (hpre : (main env iniResult entries argv pre).final = some h)
    (hswiping : env.is_swiping h.mousehold = true)
    (hnone : env.button h.mousehold = env.MOUSE_NONE) :
    (main env iniResult entries argv (pre ++ rest)).trace =
      (main env iniResult entries argv pre).trace ++ keyswipeOnly pre.length rest ∧
    (∀ c ∈ (main env iniResult entries argv pre).trace, c.index < pre.length) ∧
    (main env iniResult entries argv (pre ++ rest)).final =
      some ⟨rest.foldl env.keyswipeRun h.keyswipe, h.mousehold⟩ := by
  rw [main_of_loaded env iniResult entries argv _ hload] at hpre ⊢
  rw [main_of_loaded env iniResult entries argv _ hload]
  have hby := bypass_eq_true env h.mousehold hswiping hnone
  obtain ⟨htr, hfin⟩ := mainBody_append env _ pre rest h hpre
  rw [hslow] at htr hfin
  obtain ⟨hc, hh⟩ := runLines_bypass env rest h pre.length hby
  rw [hc] at htr
  rw [hh] at hfin
  exact ⟨htr, mainBody_trace_index_lt env _ pre, hfin⟩

/-- Witness of C10: with `mouse4 = x`, the sample `mousehold` enters the state on
`begin 4`; the lines `update`, `end`, `begin 3` then all go to `keyswipe` only,
and `mousehold` never sees the `end`. -/
theorem bypass_state_is_absorbing_witness :
    (main sampleEnv 1 [("", "mouse3", "button1"), ("", "mouse4", "x")]
        ["comfortable-swipe-buffer"] (["begin 4"] ++ ["update", "end", "begin 3"])).trace =
      (main sampleEnv 1 [("", "mouse3", "button1"), ("", "mouse4", "x")]
        ["comfortable-swipe-buffer"] ["begin 4"]).trace ++
        keyswipeOnly 1 ["update", "end", "begin 3"] ∧
    (∀ c ∈ (main sampleEnv 1 [("", "mouse3", "button1"), ("", "mouse4", "x")]
        ["comfortable-swipe-buffer"] ["begin 4"]).trace, c.index < 1) ∧
    (main sampleEnv 1 [("", "mouse3", "button1"), ("", "mouse4", "x")]
        ["comfortable-swipe-buffer"] (["begin 4"] ++ ["update", "end", "begin 3"])).final =
      some ⟨["update", "end", "begin 3"].foldl sampleEnv.keyswipeRun ["begin 4"],
            ⟨"button1", "x", true, -1⟩⟩ :=
  bypass_state_is_absorbing sampleEnv 1 [("", "mouse3", "button1"), ("", "mouse4", "x")]
    ["comfortable-swipe-buffer"] ["begin 4"] ["update", "end", "begin 3"]
    ⟨["begin 4"], ⟨"button1", "x", true, -1⟩⟩
    (by decide) (by decide) (by decide) (by decide) (by decide)

/-- C9 (per-line processing discipline). When the configuration is loaded, for
every configuration and every input: the lines received by `keyswipe`, taken
with their positions, form a sublist of the numbered input (input order, no
line twice), and so do the lines received by `mousehold`; every input line is
received by at least one of the two handlers; and whenever both receive the
same line, the call of `mousehold.run` comes before the call of
`keyswipe.run`. The calls are the ones performed on the handler objects: the
handlers at the end are the constructed handlers with exactly these calls of
`run` applied, in this order. -/
theorem per_line_discipline (env : Env F K M) (iniResult : Int)
    (entries : List (String × String × String)) (argv lines : List String)
    (hload : 0 ≤ iniResult) :
    (received Handler.keyswipe (main env iniResult entries argv lines).trace).Sublist
      (List.enumFrom 0 lines) ∧
    (received Handler.mousehold (main env iniResult entries argv lines).trace).Sublist
      (List.enumFrom 0 lines) ∧
    (∀ p ∈ List.enumFrom 0 lines,
      (⟨Handler.keyswipe, p.1, p.2⟩ : Call) ∈ (main env iniResult entries argv lines).trace ∨
      (⟨Handler.mousehold, p.1, p.2⟩ : Call) ∈ (main env iniResult entries argv lines).trace) ∧
    (∀ (j : Nat) (l : String),
      (⟨Handler.keyswipe, j, l⟩ : Call) ∈ (main env iniResult entries argv lines).trace →
      (⟨Handler.mousehold, j, l⟩ : Call) ∈ (main env iniResult entries argv lines).trace →
      ∃ a b c : List Call, (main env iniResult entries argv lines).trace =
        a ++ (⟨Handler.mousehold, j, l⟩ : Call) :: b ++ (⟨Handler.keyswipe, j, l⟩ : Call) :: c) ∧
    (main env iniResult entries argv lines).final =
      some (applyCalls env
        ⟨env.keyswipeNew (setup env (bareFilter (loadConfig entries) argv)).commands
           (setup env (bareFilter (loadConfig entries) argv)).threshold,
         env.mouseholdNew (setup env (bareFilter (loadConfig entries) argv)).mouse3
           (setup env (bareFilter (loadConfig entries) argv)).mouse4⟩
        (main env iniResult entries argv lines).trace) := by
  rw [main_of_loaded env iniResult entries argv lines hload]
  obtain ⟨hk, hm, hc, ho⟩ := runLines_discipline env
    (setup env (bareFilter (loadConfig entries) argv)).nomouse lines
    ⟨env.keyswipeNew (setup env (bareFilter (loadConfig entries) argv)).commands
       (setup env (bareFilter (loadConfig entries) argv)).threshold,
     env.mouseholdNew (setup env (bareFilter (loadConfig entries) argv)).mouse3
       (setup env (bareFilter (loadConfig entries) argv)).mouse4⟩ 0
  refine ⟨hk, hm, hc, ho, ?_⟩
  simp only [mainBody]
  rw [← runLines_handlers_applyCalls]

/-- Witness of C9: `mouse3 = button1`, `mouse4 = move`, on a 3-finger gesture
followed by the start of a 4-finger gesture; the recording `keyswipe` of the
sample environment ends holding the two lines it was called on. -/
theorem per_line_discipline_witness :
    (received Handler.keyswipe
      (main sampleEnv 1 [("", "mouse3", "button1"), ("", "mouse4", "move")]
        ["comfortable-swipe-buffer"] ["begin 3", "update", "end", "begin 4"]).trace).Sublist
      (List.enumFrom 0 ["begin 3", "update", "end", "begin 4"]) ∧
    (received Handler.mousehold
      (main sampleEnv 1 [("", "mouse3", "button1"), ("", "mouse4", "move")]
        ["comfortable-swipe-buffer"] ["begin 3", "update", "end", "begin 4"]).trace)
      = [(0, "begin 3"), (1, "update"), (2, "end"), (3, "begin 4")] ∧
    (main sampleEnv 1 [("", "mouse3", "button1"), ("", "mouse4", "move")]
        ["comfortable-swipe-buffer"] ["begin 3", "update", "end", "begin 4"]).final =
      some ⟨["end", "begin 4"], ⟨"button1", "move", true, 0⟩⟩ :=
  ⟨(per_line_discipline sampleEnv 1 [("", "mouse3", "button1"), ("", "mouse4", "move")]
      ["comfortable-swipe-buffer"] ["begin 3", "update", "end", "begin 4"] (by decide)).1,
    by decide,
    (per_line_discipline sampleEnv 1 [("", "mouse3", "button1"), ("", "mouse4", "move")]
      ["comfortable-swipe-buffer"] ["begin 3", "update", "end", "begin 4"]
      (by decide)).2.2.2.2⟩

/-- C8 (exit codes). The value returned by `main` is `EXIT_FAILURE` exactly when
`ini_parse` returned a negative value, and in that case no input line is read,
no handler is called and no handler is built. For every non-negative value of
`ini_parse`, whatever the entries, the arguments and the input lines, `main`
reads all the lines and returns `EXIT_SUCCESS`, which is 0. -/
theorem exit_code_depends_on_loader_only (env : Env F K M) (iniResult : Int)
    (entries : List (String × String × String)) (argv lines : List String) :
    ((main env iniResult entries argv lines).exitCode = EXIT_FAILURE ↔ iniResult < 0) ∧
    (iniResult < 0 →
      (main env iniResult entries argv lines).linesRead = 0 ∧
      (main env iniResult entries argv lines).trace = [] ∧
      (main env iniResult entries argv lines).final = none) ∧
    (0 ≤ iniResult →
      (main env iniResult entries argv lines).linesRead = lines.length ∧
      (main env iniResult entries argv lines).exitCode = EXIT_SUCCESS) ∧
    EXIT_SUCCESS = 0 ∧ EXIT_FAILURE ≠ 0 := by
  by_cases hneg : iniResult < 0
  · have hm : main env iniResult entries argv lines =
        ⟨EXIT_FAILURE, ["error: config " ++ env.COMFORTABLE_SWIPE_CONFIG], 0, [], none⟩ := by
      unfold main
      rw [if_pos hneg]
    rw [hm]
    refine ⟨⟨fun _ => hneg, fun _ => rfl⟩, fun _ => ⟨rfl, rfl, rfl⟩, ?_, rfl, by decide⟩
    intro h0
    omega
  · have h0 : 0 ≤ iniResult := not_lt.mp hneg
    rw [main_of_loaded env iniResult entries argv lines h0]
    have hread : (mainBody env (bareFilter (loadConfig entries) argv) lines).linesRead
        = lines.length := runLines_linesRead env _ lines _ 0
    have hexit : (mainBody env (bareFilter (loadConfig entries) argv) lines).exitCode
        = EXIT_SUCCESS := rfl
    refine ⟨⟨?_, fun h => absurd h hneg⟩, fun h => absurd h hneg, fun _ => ⟨hread, hexit⟩,
      rfl, by decide⟩
    intro h
    rw [hexit] at h
    exact absurd h (by decide)

/-- Witness of C8: a failed load (-1) and a positive loader result (2) on the
same entries and input. -/
theorem exit_code_depends_on_loader_only_witness :
    (main sampleEnv (-1) [("", "mouse3", "move"), ("", "threshold", "abc")]
      ["comfortable-swipe-buffer"] ["begin 3", "update"]).exitCode = 1 ∧
    (main sampleEnv (-1) [("", "mouse3", "move"), ("", "threshold", "abc")]
      ["comfortable-swipe-buffer"] ["begin 3", "update"]).linesRead = 0 ∧
    (main sampleEnv 2 [("", "mouse3", "move"), ("", "threshold", "abc")]
      ["comfortable-swipe-buffer"] ["begin 3", "update"]).linesRead = 2 ∧
    (main sampleEnv 2 [("", "mouse3", "move"), ("", "threshold", "abc")]
      ["comfortable-swipe-buffer"] ["begin 3", "update"]).exitCode = EXIT_SUCCESS :=
  ⟨by decide,
   ((exit_code_depends_on_loader_only sampleEnv (-1)
      [("", "mouse3", "move"), ("", "threshold", "abc")]
      ["comfortable-swipe-buffer"] ["begin 3", "update"]).2.1 (by decide)).1,
   ((exit_code_depends_on_loader_only sampleEnv 2
      [("", "mouse3", "move"), ("", "threshold", "abc")]
      ["comfortable-swipe-buffer"] ["begin 3", "update"]).2.2.1 (by decide)).1,
   ((exit_code_depends_on_loader_only sampleEnv 2
      [("", "mouse3", "move"), ("", "threshold", "abc")]
      ["comfortable-swipe-buffer"] ["begin 3", "update"]).2.2.1 (by decide)).2⟩

/-- C7 (threshold fallback). Given that `std::stof` throws on the empty string:
the threshold `main` computes is the float parsed from the value of the
`threshold` key when parsing succeeds, `0.0f` when the value cannot be parsed,
and `0.0f` when the key is absent; this threshold is the one handed to the
constructor of `keyswipe`; and in all cases a loaded configuration makes `main`
return `EXIT_SUCCESS`. -/
theorem threshold_fallback (env : Env F K M) (config : Config)
    (hempty : env.stof "" = none) :
    (∀ v x, mapFind config "threshold" = some v → env.stof v = some x →
      (setup env config).threshold = x) ∧
    (∀ v, mapFind config "threshold" = some v → env.stof v = none →
      (setup env config).threshold = env.zero) ∧
    (mapFind config "threshold" = none → (setup env config).threshold = env.zero) ∧
    (mainBody env config []).final.map Handlers.keyswipe =
      some (env.keyswipeNew (setup env config).commands (setup env config).threshold) ∧
    (∀ lines : List String, (mainBody env config lines).exitCode = EXIT_SUCCESS) ∧
    (∀ (iniResult : Int) (entries : List (String × String × String)) (argv lines : List String),
      0 ≤ iniResult → (main env iniResult entries argv lines).exitCode = EXIT_SUCCESS) := by
  refine ⟨?_, ?_, ?_, rfl, fun _ => rfl, ?_⟩
  · intro v x hv hx
    rw [setup_threshold, hv]
    simp [hx]
  · intro v hv hx
    rw [setup_threshold, hv]
    simp [hx]
  · intro hv
    rw [setup_threshold, hv]
    simp [hempty]
  · intro iniResult entries argv lines h0
    rw [main_of_loaded env iniResult entries argv lines h0]
    rfl

/-- Witness of C7: the value `0.02` is parsed by the sample parser (as 2/10^2),
the value `fast` is not. -/
theorem threshold_fallback_witness :
    sampleEnv.stof "" = none ∧
    (setup sampleEnv [("threshold", "0.02")]).threshold = (2, 2) ∧
    (setup sampleEnv [("threshold", "fast")]).threshold = sampleEnv.zero ∧
    (setup sampleEnv [("left3", "ctrl+Left")]).threshold = sampleEnv.zero :=
  ⟨by decide,
   (threshold_fallback sampleEnv [("threshold", "0.02")] (by decide)).1 "0.02" (2, 2)
     (by decide) (by decide),
   (threshold_fallback sampleEnv [("threshold", "fast")] (by decide)).2.1 "fast"
     (by decide) (by decide),
   (threshold_fallback sampleEnv [("left3", "ctrl+Left")] (by decide)).2.2.1 (by decide)⟩

/-- C5 (`--bare` filtering). When the arguments after the program name contain
`--bare`, the map after the `--bare` block binds no key other than `threshold`,
and binds `threshold` to its original value exactly when the loaded map bound
it; consequently the eight command strings are empty, both effective mouse
settings are empty, `nomouse` is true and every input line goes to
`keyswipe.run` only. -/
theorem bare_keeps_only_threshold (env : Env F K M)
    (entries : List (String × String × String)) (argv : List String)
    (hbare : "--bare" ∈ argv.drop 1) :
    (∀ k, k ≠ "threshold" → mapCount (bareFilter (loadConfig entries) argv) k = 0) ∧
    mapFind (bareFilter (loadConfig entries) argv) "threshold" =
      mapFind (loadConfig entries) "threshold" ∧
    (setup env (bareFilter (loadConfig entries) argv)).commands = List.replicate 8 "" ∧
    (setup env (bareFilter (loadConfig entries) argv)).mouse3 = "" ∧
    (setup env (bareFilter (loadConfig entries) argv)).mouse4 = "" ∧
    (setup env (bareFilter (loadConfig entries) argv)).nomouse = true ∧
    (∀ (iniResult : Int) (lines : List String), 0 ≤ iniResult →
      (main env iniResult entries argv lines).trace = keyswipeOnly 0 lines) := by
  have hfind : ∀ k, k ≠ "threshold" →
      mapFind (bareFilter (loadConfig entries) argv) k = none := by
    intro k hk
    rw [bareFilter_of_bare _ _ hbare]
    cases mapFind (loadConfig entries) "threshold" with
    | none => rfl
    | some v => exact mapFind_singleton_ne "threshold" v k hk
  have hthr : mapFind (bareFilter (loadConfig entries) argv) "threshold" =
      mapFind (loadConfig entries) "threshold" := by
    rw [bareFilter_of_bare _ _ hbare]
    cases mapFind (loadConfig entries) "threshold" with
    | none => rfl
    | some v => simp [mapFind]
  have hcmd : (setup env (bareFilter (loadConfig entries) argv)).commands
      = List.replicate 8 "" := by
    rw [setup_commands]
    simp only [command_name, List.map_cons, List.map_nil]
    rw [hfind "left3" (by decide), hfind "left4" (by decide), hfind "right3" (by decide),
      hfind "right4" (by decide), hfind "up3" (by decide), hfind "up4" (by decide),
      hfind "down3" (by decide), hfind "down4" (by decide)]
    rfl
  have h3 : (setup env (bareFilter (loadConfig entries) argv)).mouse3 = "" := by
    rw [setup_mouse3]
    unfold effectiveMouse
    rw [hfind "mouse3" (by decide), hfind "hold3" (by decide)]
    rfl
  have h4 : (setup env (bareFilter (loadConfig entries) argv)).mouse4 = "" := by
    rw [setup_mouse4]
    unfold effectiveMouse
    rw [hfind "mouse4" (by decide), hfind "hold4" (by decide)]
    rfl
  have hno : (setup env (bareFilter (loadConfig entries) argv)).nomouse = true := by
    rw [setup_nomouse, h3, h4]
    decide
  refine ⟨?_, hthr, hcmd, h3, h4, hno, ?_⟩
  · intro k hk
    unfold mapCount
    rw [hfind k hk]
    rfl
  · intro iniResult lines h0
    rw [main_of_loaded env iniResult entries argv lines h0]
    simp only [mainBody, hno]
    exact (runLines_nomouse env lines _ 0).1

/-- Witness of C5: the map `threshold = 0.02, left3 = ctrl+Left, mouse3 = move`
becomes the map `threshold = 0.02`. -/
theorem bare_keeps_only_threshold_witness :
    "--bare" ∈ ["comfortable-swipe-buffer", "--bare"].drop 1 ∧
    bareFilter
      (loadConfig [("", "threshold", "0.02"), ("", "left3", "ctrl+Left"), ("", "mouse3", "move")])
      ["comfortable-swipe-buffer", "--bare"] = [("threshold", "0.02")] ∧
    (setup sampleEnv (bareFilter
      (loadConfig [("", "threshold", "0.02"), ("", "left3", "ctrl+Left"), ("", "mouse3", "move")])
      ["comfortable-swipe-buffer", "--bare"])).nomouse = true :=
  ⟨by decide, by decide,
   (bare_keeps_only_threshold sampleEnv
      [("", "threshold", "0.02"), ("", "left3", "ctrl+Left"), ("", "mouse3", "move")]
      ["comfortable-swipe-buffer", "--bare"] (by decide)).2.2.2.2.2.1⟩

/-- C6 (deprecated alias). Let `c` be the map `main` holds after the `--bare`
block, binding neither `mouseN` nor `holdN` (N = 3 in the first half, N = 4 in
the second). The run on `c` with `holdN = v` added and the run on `c` with
`mouseN = v` added compute the same effective `mouseN` string (it is `v`), the
same other mouse string, the same `nomouse`, make the same calls on every input,
end with the same handlers and the same exit code; the lines written to
`std::cerr` differ by exactly the warning for `holdN`, written by the first
run. -/
theorem hold_alias_same_as_mouse (env : Env F K M) (c : Config) (v : String)
    (lines : List String) :
    (mapFind c "mouse3" = none → mapFind c "hold3" = none →
      (setup env (mapAssign c "hold3" v)).mouse3 = v ∧
      (setup env (mapAssign c "mouse3" v)).mouse3 = v ∧
      (setup env (mapAssign c "hold3" v)).mouse4 = (setup env (mapAssign c "mouse3" v)).mouse4 ∧
      (setup env (mapAssign c "hold3" v)).nomouse =
        (setup env (mapAssign c "mouse3" v)).nomouse ∧
      (mainBody env (mapAssign c "hold3" v) lines).trace =
        (mainBody env (mapAssign c "mouse3" v) lines).trace ∧
      (mainBody env (mapAssign c "hold3" v) lines).final =
        (mainBody env (mapAssign c "mouse3" v) lines).final ∧
      (mainBody env (mapAssign c "hold3" v) lines).exitCode =
        (mainBody env (mapAssign c "mouse3" v) lines).exitCode ∧
      (mainBody env (mapAssign c "hold3" v) lines).stderr =
        "WARNING: hold3 is deprecated. Use mouse3 instead." ::
          (mainBody env (mapAssign c "mouse3" v) lines).stderr ∧
      "WARNING: hold3 is deprecated. Use mouse3 instead." ∉
        (mainBody env (mapAssign c "mouse3" v) lines).stderr) ∧
    (mapFind c "mouse4" = none → mapFind c "hold4" = none →
      (setup env (mapAssign c "hold4" v)).mouse4 = v ∧
      (setup env (mapAssign c "mouse4" v)).mouse4 = v ∧
      (setup env (mapAssign c "hold4" v)).mouse3 = (setup env (mapAssign c "mouse4" v)).mouse3 ∧
      (setup env (mapAssign c "hold4" v)).nomouse =
        (setup env (mapAssign c "mouse4" v)).nomouse ∧
      (mainBody env (mapAssign c "hold4" v) lines).trace =
        (mainBody env (mapAssign c "mouse4" v) lines).trace ∧
      (mainBody env (mapAssign c "hold4" v) lines).final =
        (mainBody env (mapAssign c "mouse4" v) lines).final ∧
      (mainBody env (mapAssign c "hold4" v) lines).exitCode =
        (mainBody env (mapAssign c "mouse4" v) lines).exitCode ∧
      (mainBody env (mapAssign c "hold4" v) lines).stderr =
        (mainBody env (mapAssign c "mouse4" v) lines).stderr ++
          ["WARNING: hold4 is deprecated. Use mouse4 instead."] ∧
      "WARNING: hold4 is deprecated. Use mouse4 instead." ∉
        (mainBody env (mapAssign c "mouse4" v) lines).stderr) := by
  constructor
  · intro hm hh
    have e3h : (setup env (mapAssign c "hold3" v)).mouse3 = v := by
      rw [setup_mouse3]
      unfold effectiveMouse
      rw [mapFind_mapAssign_ne c "hold3" v "mouse3" (by decide), hm, mapFind_mapAssign_self]
      rfl
    have e3m : (setup env (mapAssign c "mouse3" v)).mouse3 = v := by
      rw [setup_mouse3]
      unfold effectiveMouse
      rw [mapFind_mapAssign_self]
    have e4 : (setup env (mapAssign c "hold3" v)).mouse4 =
        (setup env (mapAssign c "mouse3" v)).mouse4 := by
      rw [setup_mouse4, setup_mouse4]
      unfold effectiveMouse
      rw [mapFind_mapAssign_ne c "hold3" v "mouse4" (by decide),
        mapFind_mapAssign_ne c "hold3" v "hold4" (by decide),
        mapFind_mapAssign_ne c "mouse3" v "mouse4" (by decide),
        mapFind_mapAssign_ne c "mouse3" v "hold4" (by decide)]
    have en : (setup env (mapAssign c "hold3" v)).nomouse =
        (setup env (mapAssign c "mouse3" v)).nomouse := by
      rw [setup_nomouse, setup_nomouse, e3h, e3m, e4]
    obtain ⟨ec, et⟩ := setup_congr_of_alias env c "hold3" "mouse3" v
      (by decide) (by decide) (by decide) (by decide)
    obtain ⟨htr, hfin, hexit, -⟩ := mainBody_congr env _ _ lines ec et (e3h.trans e3m.symm) e4
    have hw1 : (mainBody env (mapAssign c "hold3" v) lines).stderr =
        holdWarnings (mapAssign c "hold3" v) := setup_warnings env _
    have hw2 : (mainBody env (mapAssign c "mouse3" v) lines).stderr =
        holdWarnings (mapAssign c "mouse3" v) := setup_warnings env _
    refine ⟨e3h, e3m, e4, en, htr, hfin, hexit, ?_, ?_⟩
    · rw [hw1, hw2]
      unfold holdWarnings mapCount
      rw [mapFind_mapAssign_self, mapFind_mapAssign_ne c "hold3" v "hold4" (by decide),
        mapFind_mapAssign_ne c "mouse3" v "hold3" (by decide),
        mapFind_mapAssign_ne c "mouse3" v "hold4" (by decide), hh]
      simp
    · rw [hw2]
      unfold holdWarnings mapCount
      rw [mapFind_mapAssign_ne c "mouse3" v "hold3" (by decide), hh]
      by_cases hx : (mapFind (mapAssign c "mouse3" v) "hold4").isSome = true <;> simp [hx]
  · intro hm hh
    have e4h : (setup env (mapAssign c "hold4" v)).mouse4 = v := by
      rw [setup_mouse4]
      unfold effectiveMouse
      rw [mapFind_mapAssign_ne c "hold4" v "mouse4" (by decide), hm, mapFind_mapAssign_self]
      rfl
    have e4m : (setup env (mapAssign c "mouse4" v)).mouse4 = v := by
      rw [setup_mouse4]
      unfold effectiveMouse
      rw [mapFind_mapAssign_self]
    have e3 : (setup env (mapAssign c "hold4" v)).mouse3 =
        (setup env (mapAssign c "mouse4" v)).mouse3 := by
      rw [setup_mouse3, setup_mouse3]
      unfold effectiveMouse
      rw [mapFind_mapAssign_ne c "hold4" v "mouse3" (by decide),
        mapFind_mapAssign_ne c "hold4" v "hold3" (by decide),
        mapFind_mapAssign_ne c "mouse4" v "mouse3" (by decide),
        mapFind_mapAssign_ne c "mouse4" v "hold3" (by decide)]
    have en : (setup env (mapAssign c "hold4" v)).nomouse =
        (setup env (mapAssign c "mouse4" v)).nomouse := by
      rw [setup_nomouse, setup_nomouse, e4h, e4m, e3]
    obtain ⟨ec, et⟩ := setup_congr_of_alias env c "hold4" "mouse4" v
      (by decide) (by decide) (by decide) (by decide)
    obtain ⟨htr, hfin, hexit, -⟩ := mainBody_congr env _ _ lines ec et e3 (e4h.trans e4m.symm)
    have hw1 : (mainBody env (mapAssign c "hold4" v) lines).stderr =
        holdWarnings (mapAssign c "hold4" v) := setup_warnings env _
    have hw2 : (mainBody env (mapAssign c "mouse4" v) lines).stderr =
        holdWarnings (mapAssign c "mouse4" v) := setup_warnings env _
    refine ⟨e4h, e4m, e3, en, htr, hfin, hexit, ?_, ?_⟩
    · rw [hw1, hw2]
      unfold holdWarnings mapCount
      rw [mapFind_mapAssign_self, mapFind_mapAssign_ne c "hold4" v "hold3" (by decide),
        mapFind_mapAssign_ne c "mouse4" v "hold3" (by decide),
        mapFind_mapAssign_ne c "mouse4" v "hold4" (by decide), hh]
      simp
    · rw [hw2]
      unfold holdWarnings mapCount
      rw [mapFind_mapAssign_ne c "mouse4" v "hold4" (by decide), hh]
      by_cases hx : (mapFind (mapAssign c "mouse4" v) "hold3").isSome = true <;> simp [hx]

/-- Witness of C6: the map `threshold = 0.02, mouse4 = move` with `hold3 = button1`
or `mouse3 = button1` added, on a 3-finger gesture; and the map
`threshold = 0.02, hold3 = move` with `hold4 = button3` or `mouse4 = button3`
added, on a 4-finger gesture. -/
theorem hold_alias_same_as_mouse_witness :
    mapFind [("threshold", "0.02"), ("mouse4", "move")] "mouse3" = none ∧
    mapFind [("threshold", "0.02"), ("mouse4", "move")] "hold3" = none ∧
    (mainBody sampleEnv (mapAssign [("threshold", "0.02"), ("mouse4", "move")] "hold3" "button1")
        ["begin 3", "update", "end"]).trace =
      (mainBody sampleEnv
        (mapAssign [("threshold", "0.02"), ("mouse4", "move")] "mouse3" "button1")
        ["begin 3", "update", "end"]).trace ∧
    (mainBody sampleEnv (mapAssign [("threshold", "0.02"), ("mouse4", "move")] "hold3" "button1")
        ["begin 3", "update", "end"]).stderr =
      ["WARNING: hold3 is deprecated. Use mouse3 instead."] ∧
    mapFind [("threshold", "0.02"), ("hold3", "move")] "mouse4" = none ∧
    mapFind [("threshold", "0.02"), ("hold3", "move")] "hold4" = none ∧
    (mainBody sampleEnv (mapAssign [("threshold", "0.02"), ("hold3", "move")] "hold4" "button3")
        ["begin 4", "update", "end"]).stderr =
      (mainBody sampleEnv (mapAssign [("threshold", "0.02"), ("hold3", "move")] "mouse4" "button3")
        ["begin 4", "update", "end"]).stderr ++
        ["WARNING: hold4 is deprecated. Use mouse4 instead."] :=
  ⟨by decide, by decide,
   ((hold_alias_same_as_mouse sampleEnv [("threshold", "0.02"), ("mouse4", "move")] "button1"
      ["begin 3", "update", "end"]).1 (by decide) (by decide)).2.2.2.2.1,
   by decide, by decide, by decide,
   ((hold_alias_same_as_mouse sampleEnv [("threshold", "0.02"), ("hold3", "move")] "button3"
      ["begin 4", "update", "end"]).2 (by decide) (by decide)).2.2.2.2.2.2.2.1⟩

end Claims

end ComfortableSwipe
